import Mathlib

/-!
Shallow embedding of the chore-pref application core: the roommate
identity-resolution and preference-synchronization logic of the two
variants `src/chore-pref/src/App.js` (debounced resolution, submit-time
existence re-check, upsert with explicit conflict target) and
`src/chore-pref/app/page.js` (blur-triggered resolution, blind submit-time
insert, bare upsert).

Modelling conventions:
- The remote store (Supabase) is modelled as a `DB` value holding the
  `roommates` and `preferences` record collections.  The `chores` catalog
  lives in session state, as in the source (fetched once into a useState).
- Asynchronous remote calls can fail; failure of each call site is
  injected through the `Failures` record (a `true` flag makes that call
  return a backend error).  `PGRST116` ("no rows found" from `.single()`)
  is not a `Failures` flag: it is the deterministic outcome of the lookup
  finding no row, so it is modelled by `findRoommate` returning `none`.
- React state setters are modelled by functional record update on
  `SessionState`; `setLoading(true)` at the start of a submit paired with
  the `finally setLoading(false)` nets to `loading := false` in every
  terminal state of `handleSubmit`, which is what the model records.
- JavaScript scores are numbers; `preferences[chore.id] || 1` yields 1
  both when the entry is absent (`undefined`, falsy) and when it is `0`
  (falsy).  `jsOr1` embeds exactly this.
- `console.error` (a log, not user-visible) is recorded as the `Bool`
  component returned by the fetch functions; the user-visible `alert`s of
  `handleSubmit` are recorded in `SubmitOutcome`.
-/

namespace ChorePref

abbrev ChoreId := Nat
abbrev RoommateId := Nat
abbrev Score := Int

/-- A row of the `chores` catalog collection: `{id, name}`. -/
structure Chore where
  id : ChoreId
  name : String
deriving DecidableEq, Repr

/-- A row of the `roommates` collection: `{id, name}`, id auto-generated. -/
structure Roommate where
  id : RoommateId
  name : String
deriving DecidableEq, Repr

/-- A row of the `preferences` collection. -/
structure PrefRow where
  roommate_id : RoommateId
  chore_id : ChoreId
  preference_score : Score
deriving DecidableEq, Repr

/-- The remote store: the two mutable collections, plus the next
auto-generated roommate id. -/
structure DB where
  roommates : List Roommate
  preferences : List PrefRow
  nextId : RoommateId
deriving DecidableEq, Repr

/-- Failure injection for the asynchronous store calls: a `true` flag makes
the corresponding call site return a backend error. -/
structure Failures where
  lookupRoommate : Bool
  insertRoommate : Bool
  fetchPrefs : Bool
  upsertPrefs : Bool
deriving DecidableEq, Repr

/-- No injected failures: every store call succeeds. -/
def noFail : Failures := ⟨false, false, false, false⟩

/-- Session state of the React component (the useState hooks): current name
text, resolved roommate id (nullable), chore catalog, local sparse
preference map, and the pending-save flag. -/
structure SessionState where
  roommateName : String
  roommateId : Option RoommateId
  chores : List Chore
  preferences : ChoreId → Option Score
  loading : Bool

/-- The empty local preference map (`{}`). -/
def emptyPrefs : ChoreId → Option Score := fun _ => none

/-- JavaScript `String.prototype.trim()`: strip leading and trailing
whitespace.  Spelled out structurally over the character list (with
whitespace per `Char.isWhitespace`) so that it reduces in the kernel. -/
def jsTrim (s : String) : String :=
  ⟨((s.data.dropWhile Char.isWhitespace).reverse.dropWhile Char.isWhitespace).reverse⟩

/-- Point lookup by exact `name` equality on the `roommates` collection
(a filtered select with .eq on the name column, expecting 0 or 1 row). -/
def findRoommate (db : DB) (name : String) : Option Roommate :=
  db.roommates.find? (fun r => r.name == name)

/-- Insert a roommate with auto-generated id, returning the inserted row
(`.insert([{name}]).select().single()`). -/
def insertRoommate (db : DB) (name : String) : Roommate × DB :=
  let r : Roommate := { id := db.nextId, name := name }
  (r, { db with roommates := db.roommates ++ [r], nextId := db.nextId + 1 })

/-- `preferencesData.forEach((pref) => { preferencesMap[pref.chore_id] =
pref.preference_score })`: build the local map from fetched rows, later
rows overwriting earlier ones at the same chore id. -/
def buildPrefMap (rows : List PrefRow) : ChoreId → Option Score :=
  rows.foldl (fun m r => fun c => if c = r.chore_id then some r.preference_score else m c)
    (fun _ => none)

/-- `fetchRoommateData` of `src/App.js` (lines 49-89).  Returns the new
session state and whether a `console.error` was emitted.
- A genuine lookup backend error (non-PGRST116): log and `return`, state
  untouched.
- `PGRST116` (no roommate found): clear `roommateId` and `preferences`,
  no log.
- Roommate found: `setRoommateId` first, then fetch the preference rows
  of that roommate; a failure there is logged and leaves the preference
  map untouched (but `roommateId` has already been set). -/
def fetchRoommateData_app (f : Failures) (db : DB) (name : String) (st : SessionState) :
    SessionState × Bool :=
  let trimmedName := jsTrim name
  if f.lookupRoommate then
    (st, true)
  else
    match findRoommate db trimmedName with
    | none => ({ st with roommateId := none, preferences := emptyPrefs }, false)
    | some r =>
      let st1 := { st with roommateId := some r.id }
      if f.fetchPrefs then
        (st1, true)
      else
        ({ st1 with
            preferences := buildPrefMap (db.preferences.filter (fun p => p.roommate_id == r.id)) },
          false)

/-- `fetchRoommateData` of `app/page.js` (lines 32-68).  A genuine lookup
backend error is logged, but execution then falls through to the
`roommateData` null-check, whose else-branch clears `roommateId` and
`preferences` exactly as in the not-found case. -/
def fetchRoommateData_page (f : Failures) (db : DB) (name : String) (st : SessionState) :
    SessionState × Bool :=
  if f.lookupRoommate then
    ({ st with roommateId := none, preferences := emptyPrefs }, true)
  else
    match findRoommate db name with
    | none => ({ st with roommateId := none, preferences := emptyPrefs }, false)
    | some r =>
      let st1 := { st with roommateId := some r.id }
      if f.fetchPrefs then
        (st1, true)
      else
        ({ st1 with
            preferences := buildPrefMap (db.preferences.filter (fun p => p.roommate_id == r.id)) },
          false)

/-- The debounce timer body of `src/App.js` (lines 38-45): when the name
has settled, look up iff the trimmed name is non-empty, otherwise clear
identity and preferences without touching the store. -/
def settleDebounced_app (f : Failures) (db : DB) (st : SessionState) : SessionState × Bool :=
  if jsTrim st.roommateName ≠ "" then
    fetchRoommateData_app f db (jsTrim st.roommateName) st
  else
    ({ st with roommateId := none, preferences := emptyPrefs }, false)

/-- `handleRoommateNameBlur` of `app/page.js` (lines 71-78): same guard on
the blur event. -/
def settleBlur_page (f : Failures) (db : DB) (st : SessionState) : SessionState × Bool :=
  if jsTrim st.roommateName ≠ "" then
    fetchRoommateData_page f db (jsTrim st.roommateName) st
  else
    ({ st with roommateId := none, preferences := emptyPrefs }, false)

/-- Whether settling the name triggers a remote lookup: the shared guard
of both settle handlers, that the trimmed roommateName is non-empty. -/
def settleLooksUp (name : String) : Bool :=
  jsTrim name ≠ ""

/-- `handlePreferenceChange(choreId, score)`:
`setPreferences((prev) => ({...prev, [choreId]: score}))`. -/
def handlePreferenceChange (choreId : ChoreId) (score : Score) (st : SessionState) :
    SessionState :=
  { st with preferences := fun c => if c = choreId then some score else st.preferences c }

/-- JavaScript `v || 1` on a possibly-absent numeric entry: `undefined`
(absence) and `0` are falsy, so both yield the default 1. -/
def jsOr1 (v : Option Score) : Score :=
  match v with
  | none => 1
  | some s => if s = 0 then 1 else s

/-- The value shown by the selector of a chore: the map entry at the
chore id, with JavaScript falsy values defaulting to 1. -/
def displayedScore (prefs : ChoreId → Option Score) (c : ChoreId) : Score :=
  jsOr1 (prefs c)

/-- The submit batch (`preferencesData` of `handleSubmit`): one row per
chore in the catalog, `preference_score: preferences[chore.id] || 1`. -/
def preferencesData (rid : RoommateId) (chores : List Chore)
    (prefs : ChoreId → Option Score) : List PrefRow :=
  chores.map (fun chore =>
    { roommate_id := rid, chore_id := chore.id, preference_score := jsOr1 (prefs chore.id) })

/-- Whether a row has the given composite key (roommate_id, chore_id). -/
def keyMatches (rid : RoommateId) (cid : ChoreId) (q : PrefRow) : Bool :=
  q.roommate_id == rid && q.chore_id == cid

/-- One row of the batched upsert of the store, with conflict target
(roommate_id, chore_id): `ON CONFLICT (roommate_id, chore_id) DO UPDATE`
overwrites `preference_score` of the clashing row, otherwise the row is
inserted.  Modelled from the spec for the conflict resolution itself
(the store is an external collaborator whose schema is not under src/):
the uniqueness/conflict key of the `preferences` collection is the
composite (roommate_id, chore_id); `src/App.js` names it explicitly in
its onConflict option, and the bare `upsert` of `app/page.js` resolves on
the primary key of the table, which the data model of the spec makes that
same composite key. -/
def upsertRow (rows : List PrefRow) (r : PrefRow) : List PrefRow :=
  if rows.any (keyMatches r.roommate_id r.chore_id) then
    rows.map (fun q =>
      if keyMatches r.roommate_id r.chore_id q then
        { q with preference_score := r.preference_score }
      else q)
  else
    rows ++ [r]

/-- The batched upsert: apply the rows of the batch in order. -/
def upsertPrefs (rows : List PrefRow) (batch : List PrefRow) : List PrefRow :=
  batch.foldl upsertRow rows

/-- Number of persisted rows with a given (roommate_id, chore_id) key. -/
def countKey (rows : List PrefRow) (rid : RoommateId) (cid : ChoreId) : Nat :=
  (rows.filter (keyMatches rid cid)).length

/-- The persisted score at a given (roommate_id, chore_id) key. -/
def lookupKey (rows : List PrefRow) (rid : RoommateId) (cid : ChoreId) : Option Score :=
  (rows.find? (keyMatches rid cid)).map (fun q => q.preference_score)

/-- JavaScript truthiness of `currentRoommateId` in
`if (!currentRoommateId)`: `null` and `0` are falsy. -/
def jsTruthyId (rid : Option RoommateId) : Bool :=
  match rid with
  | none => false
  | some i => i != 0

/-- The user-visible outcome of a submit: the success `alert` (carrying
the upserted batch for specification purposes) or the failure `alert`. -/
inductive SubmitOutcome where
  | saved (batch : List PrefRow)
  | errorAlert
deriving DecidableEq, Repr

/-- The submit-time identity-creation sequence of `src/App.js`
`handleSubmit` (lines 107-137), run when no truthy id is cached: look the
name up (`maybeSingle`); on a backend error abort; if a row exists reuse
its id; otherwise insert a new roommate and use the inserted id. -/
def getOrCreate_app (f : Failures) (db : DB) (name : String) :
    Except Unit (RoommateId × DB) :=
  if f.lookupRoommate then
    .error ()
  else
    match findRoommate db name with
    | some r => .ok (r.id, db)
    | none =>
      if f.insertRoommate then
        .error ()
      else
        let rdb := insertRoommate db name
        .ok (rdb.1.id, rdb.2)

/-- The submit-time identity-creation sequence of `app/page.js`
`handleSubmit` (lines 94-106), run when no truthy id is cached: a blind
insert of `roommateName` (note: not trimmed there) with no existence
re-check. -/
def getOrCreate_page (db : DB) (name : String) : RoommateId × DB :=
  let rdb := insertRoommate db name
  (rdb.1.id, rdb.2)

/-- The tail of both submit handlers once an id is in hand: build
`preferencesData` and upsert it; on upsert failure alert the error,
otherwise alert success.  `loading` is `false` in the terminal state
(`finally setLoading(false)`). -/
def finishSubmit (f : Failures) (db : DB) (st : SessionState) (rid : RoommateId) :
    SessionState × DB × SubmitOutcome :=
  let batch := preferencesData rid st.chores st.preferences
  if f.upsertPrefs then
    ({ st with loading := false }, db, .errorAlert)
  else
    ({ st with loading := false },
      { db with preferences := upsertPrefs db.preferences batch },
      .saved batch)

/-- `handleSubmit` of `src/App.js` (lines 97-162): if a truthy roommate id
is cached use it, otherwise run the re-checking creation sequence on the
trimmed name (`setRoommateId` on its success); then upsert the batch. -/
def handleSubmit_app (f : Failures) (db : DB) (st : SessionState) :
    SessionState × DB × SubmitOutcome :=
  if jsTruthyId st.roommateId then
    finishSubmit f db st (st.roommateId.getD 0)
  else
    match getOrCreate_app f db (jsTrim st.roommateName) with
    | .error _ => ({ st with loading := false }, db, .errorAlert)
    | .ok riddb =>
      finishSubmit f riddb.2 { st with roommateId := some riddb.1 } riddb.1

/-- `handleSubmit` of `app/page.js` (lines 86-132): if a truthy roommate
id is cached use it, otherwise blindly insert (no existence re-check, raw
`roommateName`); then upsert the batch. -/
def handleSubmit_page (f : Failures) (db : DB) (st : SessionState) :
    SessionState × DB × SubmitOutcome :=
  if jsTruthyId st.roommateId then
    finishSubmit f db st (st.roommateId.getD 0)
  else
    if f.insertRoommate then
      ({ st with loading := false }, db, .errorAlert)
    else
      let riddb := getOrCreate_page db st.roommateName
      finishSubmit f riddb.2 { st with roommateId := some riddb.1 } riddb.1

/-- The `disabled` expression of the submit button: a save is pending, or
the trimmed roommateName is empty. -/
def submitDisabled (loading : Bool) (roommateName : String) : Bool :=
  loading || jsTrim roommateName == ""

/-- Completed `fetchRoommateData` calls apply their results to session
state unconditionally on arrival: the code carries no generation tag and
performs no is-this-still-relevant check, so the final state is the fold
of the results in arrival order, whatever order the requests were started
in. -/
def applyArrivals (f : Failures) (db : DB) (arrivals : List String) (st : SessionState) :
    SessionState :=
  arrivals.foldl (fun s n => (fetchRoommateData_app f db n s).1) st

/-! Concrete stores and sessions used to instantiate the theorems. -/

/-- An empty store. -/
def wDBEmpty : DB := { roommates := [], preferences := [], nextId := 1 }

/-- A store that already holds roommate "Alex" with id 7 and a stored
preference row (7, 1, 2). -/
def wDBAlex7 : DB :=
  { roommates := [{ id := 7, name := "Alex" }]
    preferences := [{ roommate_id := 7, chore_id := 1, preference_score := 2 }]
    nextId := 8 }

/-- A store holding roommates "Alex" (id 1) and "Bob" (id 2) with stored
scores 4 and 5 respectively for chore 10. -/
def wDBAB : DB :=
  { roommates := [{ id := 1, name := "Alex" }, { id := 2, name := "Bob" }]
    preferences := [{ roommate_id := 1, chore_id := 10, preference_score := 4 },
      { roommate_id := 2, chore_id := 10, preference_score := 5 }]
    nextId := 3 }

/-- A session: name "Alex" typed, nothing resolved yet, a two-chore
catalog, local score 4 for chore 1 only. -/
def wStAlex : SessionState :=
  { roommateName := "Alex"
    roommateId := none
    chores := [{ id := 1, name := "Dishes" }, { id := 2, name := "Trash" }]
    preferences := fun c => if c = 1 then some 4 else none
    loading := false }

/-- A session: name "Bob" typed, nothing resolved yet, one-chore catalog,
empty local map. -/
def wStBob : SessionState :=
  { roommateName := "Bob"
    roommateId := none
    chores := [{ id := 10, name := "Dishes" }]
    preferences := emptyPrefs
    loading := false }

/-- A session whose name is whitespace only. -/
def wStBlank : SessionState :=
  { roommateName := "  "
    roommateId := some 3
    chores := [{ id := 1, name := "Dishes" }]
    preferences := fun c => if c = 1 then some 4 else none
    loading := false }

/-- Failure injection that fails only the preference upsert. -/
def wFailUpsert : Failures :=
  { lookupRoommate := false, insertRoommate := false, fetchPrefs := false, upsertPrefs := true }

/-- Failure injection that fails only the roommate lookup. -/
def wFailLookup : Failures :=
  { lookupRoommate := true, insertRoommate := false, fetchPrefs := false, upsertPrefs := false }

/-- Failure injection that fails only the preference fetch. -/
def wFailFetchPrefs : Failures :=
  { lookupRoommate := false, insertRoommate := false, fetchPrefs := true, upsertPrefs := false }

/-!  Theorems. -/

/-- Claim C7: for every name whose trimmed form is the empty string,
settling the name field (debounce body in src/App.js, blur handler in
app/page.js) performs no remote lookup — the result does not depend on the
store or on any injected failure — and short-circuits to the state with no
resolved identity and an empty preference map. -/
theorem C7_empty_name_short_circuits (f f2 : Failures) (db db2 : DB) (st : SessionState)
    (h : jsTrim st.roommateName = "") :
    settleDebounced_app f db st =
      ({ st with roommateId := none, preferences := emptyPrefs }, false) ∧
    settleBlur_page f db st =
      ({ st with roommateId := none, preferences := emptyPrefs }, false) ∧
    settleLooksUp st.roommateName = false ∧
    settleDebounced_app f db st = settleDebounced_app f2 db2 st ∧
    settleBlur_page f db st = settleBlur_page f2 db2 st := by
  simp [settleDebounced_app, settleBlur_page, settleLooksUp, h]

/-- Witness for C7 at a whitespace-only name. -/
theorem C7_empty_name_short_circuits_witness :
    settleDebounced_app noFail wDBAlex7 wStBlank =
      ({ wStBlank with roommateId := none, preferences := emptyPrefs }, false) ∧
    settleBlur_page noFail wDBAlex7 wStBlank =
      ({ wStBlank with roommateId := none, preferences := emptyPrefs }, false) ∧
    settleLooksUp wStBlank.roommateName = false ∧
    settleDebounced_app noFail wDBAlex7 wStBlank = settleDebounced_app wFailLookup wDBEmpty wStBlank ∧
    settleBlur_page noFail wDBAlex7 wStBlank = settleBlur_page wFailLookup wDBEmpty wStBlank :=
  C7_empty_name_short_circuits noFail wFailLookup wDBAlex7 wDBEmpty wStBlank (by decide)

/-- Claim C10: `handlePreferenceChange(choreId, score)` sets the local
map entry for that chore to the score and leaves the entry of every
other chore, the resolved identity, and the current name unchanged. -/
theorem C10_handlePreferenceChange_frame (st : SessionState) (c : ChoreId) (s : Score) :
    (handlePreferenceChange c s st).preferences c = some s ∧
    (∀ c2, c2 ≠ c → (handlePreferenceChange c s st).preferences c2 = st.preferences c2) ∧
    (handlePreferenceChange c s st).roommateId = st.roommateId ∧
    (handlePreferenceChange c s st).roommateName = st.roommateName := by
  refine ⟨by simp [handlePreferenceChange], ?_, rfl, rfl⟩
  intro c2 h2
  simp [handlePreferenceChange, h2]

/-- Witness for C10: edit chore 1 to score 5 in a concrete session. -/
theorem C10_handlePreferenceChange_frame_witness :
    (handlePreferenceChange 1 5 wStAlex).preferences 1 = some 5 ∧
    (handlePreferenceChange 1 5 wStAlex).preferences 2 = wStAlex.preferences 2 ∧
    (handlePreferenceChange 1 5 wStAlex).roommateId = wStAlex.roommateId ∧
    (handlePreferenceChange 1 5 wStAlex).roommateName = wStAlex.roommateName := by
  obtain ⟨h1, h2, h3, h4⟩ := C10_handlePreferenceChange_frame wStAlex 1 5
  exact ⟨h1, h2 2 (by decide), h3, h4⟩

/-- Claim C9: a local-map entry of 0 (falsy in JavaScript) behaves exactly
like an absent entry: the displayed selector value is the default 1, and
the submit batch built from the map with the entry set to 0 equals the
batch built from the map with the entry removed. -/
theorem C9_falsy_zero_is_default (st : SessionState) (rid : RoommateId) (c : ChoreId) :
    displayedScore (handlePreferenceChange c 0 st).preferences c = 1 ∧
    displayedScore emptyPrefs c = 1 ∧
    preferencesData rid st.chores (handlePreferenceChange c 0 st).preferences =
      preferencesData rid st.chores (fun c2 => if c2 = c then none else st.preferences c2) := by
  refine ⟨by simp [handlePreferenceChange, displayedScore, jsOr1], rfl, ?_⟩
  unfold preferencesData
  refine List.map_congr_left (fun chore _ => ?_)
  by_cases hc : chore.id = c
  · simp [handlePreferenceChange, hc, jsOr1]
  · simp [handlePreferenceChange, hc]

/-- Every terminal state of the src/App.js submit handler has
`loading = false`, and the handler never touches the name field. -/
theorem handleSubmit_app_terminal (f : Failures) (db : DB) (st : SessionState) :
    (handleSubmit_app f db st).1.loading = false ∧
    (handleSubmit_app f db st).1.roommateName = st.roommateName := by
  unfold handleSubmit_app finishSubmit
  split
  · split <;> simp
  · split
    · simp
    · split <;> simp

/-- Every terminal state of the app/page.js submit handler has
`loading = false`, and the handler never touches the name field. -/
theorem handleSubmit_page_terminal (f : Failures) (db : DB) (st : SessionState) :
    (handleSubmit_page f db st).1.loading = false ∧
    (handleSubmit_page f db st).1.roommateName = st.roommateName := by
  unfold handleSubmit_page finishSubmit
  split
  · split <;> simp
  · split
    · simp
    · split <;> simp

/-- Claim C8: the submit control is disabled whenever a save is pending
(`loading`) or the trimmed name is empty, and after every submit — either
variant, any outcome — `loading` is `false` and the name is untouched, so
the control is re-enabled (not disabled) whenever the trimmed name is
non-empty, which a submit requires. -/
theorem C8_submit_gating (f : Failures) (db : DB) (st : SessionState) (l : Bool)
    (name : String) :
    submitDisabled true name = true ∧
    (jsTrim name = "" → submitDisabled l name = true) ∧
    (handleSubmit_app f db st).1.loading = false ∧
    (handleSubmit_app f db st).1.roommateName = st.roommateName ∧
    (handleSubmit_page f db st).1.loading = false ∧
    (handleSubmit_page f db st).1.roommateName = st.roommateName ∧
    (jsTrim st.roommateName ≠ "" →
      submitDisabled (handleSubmit_app f db st).1.loading
        (handleSubmit_app f db st).1.roommateName = false ∧
      submitDisabled (handleSubmit_page f db st).1.loading
        (handleSubmit_page f db st).1.roommateName = false) := by
  obtain ⟨ha1, ha2⟩ := handleSubmit_app_terminal f db st
  obtain ⟨hp1, hp2⟩ := handleSubmit_page_terminal f db st
  refine ⟨by simp [submitDisabled], ?_, ha1, ha2, hp1, hp2, ?_⟩
  · intro h
    simp [submitDisabled, h]
  · intro h
    constructor <;> simp [submitDisabled, ha1, ha2, hp1, hp2, h]

/-- Witness for C8 at a concrete session with a non-empty name. -/
theorem C8_submit_gating_witness :
    submitDisabled true "Alex" = true ∧
    submitDisabled false "  " = true ∧
    (handleSubmit_app noFail wDBAlex7 wStAlex).1.loading = false ∧
    submitDisabled (handleSubmit_app noFail wDBAlex7 wStAlex).1.loading
      (handleSubmit_app noFail wDBAlex7 wStAlex).1.roommateName = false ∧
    submitDisabled (handleSubmit_page noFail wDBAlex7 wStAlex).1.loading
      (handleSubmit_page noFail wDBAlex7 wStAlex).1.roommateName = false := by
  obtain ⟨h1, -, h3, -, -, -, h7⟩ := C8_submit_gating noFail wDBAlex7 wStAlex false "Alex"
  obtain ⟨ha, hp⟩ := h7 (by decide)
  obtain ⟨-, h2, -, -, -, -, -⟩ := C8_submit_gating noFail wDBAlex7 wStAlex false "  "
  exact ⟨h1, h2 (by decide), h3, ha, hp⟩

/-- A successful submit of the src/App.js handler reports the upserted
batch built from the catalog and local map of the session. -/
theorem handleSubmit_app_saved_batch (f : Failures) (db : DB) (st : SessionState)
    (st2 : SessionState) (db2 : DB) (batch : List PrefRow)
    (h : handleSubmit_app f db st = (st2, db2, .saved batch)) :
    ∃ rid, batch = preferencesData rid st.chores st.preferences := by
  unfold handleSubmit_app finishSubmit at h
  split at h
  · split at h
    · simp at h
    · simp only [Prod.mk.injEq, SubmitOutcome.saved.injEq] at h
      exact ⟨_, h.2.2.symm⟩
  · split at h
    · simp at h
    · split at h
      · simp at h
      · simp only [Prod.mk.injEq, SubmitOutcome.saved.injEq] at h
        exact ⟨_, h.2.2.symm⟩

/-- A successful submit of the app/page.js handler reports the upserted
batch built from the catalog and local map of the session. -/
theorem handleSubmit_page_saved_batch (f : Failures) (db : DB) (st : SessionState)
    (st2 : SessionState) (db2 : DB) (batch : List PrefRow)
    (h : handleSubmit_page f db st = (st2, db2, .saved batch)) :
    ∃ rid, batch = preferencesData rid st.chores st.preferences := by
  unfold handleSubmit_page finishSubmit getOrCreate_page at h
  split at h
  · split at h
    · simp at h
    · simp only [Prod.mk.injEq, SubmitOutcome.saved.injEq] at h
      exact ⟨_, h.2.2.symm⟩
  · split at h
    · simp at h
    · split at h
      · simp at h
      · simp only [Prod.mk.injEq, SubmitOutcome.saved.injEq] at h
        exact ⟨_, h.2.2.symm⟩

/-- Claim C1: the submit batch holds exactly one row per chore of the
catalog — the i-th row carries the resolved roommate id, the id of the
i-th chore, and its local score with absent entries defaulting to 1 —
and every successful submit (either variant) upserts exactly such a
batch, of length |catalog|. -/
theorem C1_submit_batch_one_row_per_chore (rid : RoommateId) (chores : List Chore)
    (prefs : ChoreId → Option Score) :
    (preferencesData rid chores prefs).length = chores.length ∧
    (∀ i (h : i < chores.length) (h2 : i < (preferencesData rid chores prefs).length),
      (preferencesData rid chores prefs).get ⟨i, h2⟩ =
        { roommate_id := rid, chore_id := (chores.get ⟨i, h⟩).id,
          preference_score := jsOr1 (prefs (chores.get ⟨i, h⟩).id) }) ∧
    (∀ c, prefs c = none → jsOr1 (prefs c) = 1) ∧
    (∀ f db st st2 db2 batch, handleSubmit_app f db st = (st2, db2, .saved batch) →
      batch.length = st.chores.length) ∧
    (∀ f db st st2 db2 batch, handleSubmit_page f db st = (st2, db2, .saved batch) →
      batch.length = st.chores.length) := by
  refine ⟨by simp [preferencesData], ?_, ?_, ?_, ?_⟩
  · intro i h h2
    simp [preferencesData, List.get_eq_getElem, List.getElem_map]
  · intro c hc
    simp [hc, jsOr1]
  · intro f db st st2 db2 batch h
    obtain ⟨r, hr⟩ := handleSubmit_app_saved_batch f db st st2 db2 batch h
    simp [hr, preferencesData]
  · intro f db st st2 db2 batch h
    obtain ⟨r, hr⟩ := handleSubmit_page_saved_batch f db st st2 db2 batch h
    simp [hr, preferencesData]

/-- Witness for C1: the spec scenario — catalog Dishes/Trash, local map
{1 ↦ 4} with chore 2 unset — yields the two rows (7,1,4) and (7,2,1). -/
theorem C1_submit_batch_one_row_per_chore_witness :
    (preferencesData 7 wStAlex.chores wStAlex.preferences).length = 2 ∧
    (preferencesData 7 wStAlex.chores wStAlex.preferences).get ⟨0, by decide⟩ =
      { roommate_id := 7, chore_id := 1, preference_score := 4 } ∧
    (preferencesData 7 wStAlex.chores wStAlex.preferences).get ⟨1, by decide⟩ =
      { roommate_id := 7, chore_id := 2, preference_score := 1 } ∧
    jsOr1 (wStAlex.preferences 2) = 1 := by
  obtain ⟨h1, h2, h3, -, -⟩ :=
    C1_submit_batch_one_row_per_chore 7 wStAlex.chores wStAlex.preferences
  exact ⟨h1, h2 0 (by decide) (by decide), h2 1 (by decide) (by decide), h3 2 rfl⟩

/-- `find?` over an appended list when the first part has no match. -/
theorem find?_append_of_none {α : Type} {p : α → Bool} {l1 l2 : List α}
    (h : l1.find? p = none) : (l1 ++ l2).find? p = l2.find? p := by
  rw [List.find?_append, h, Option.none_or]

/-- Claim C2 (amended to the src/App.js variant): the submit-time creation
sequence looks the name up immediately before inserting, so running it
twice in sequence — no concurrent interleaving, no injected failures —
returns the same id both times, leaves the store untouched the second
time, adds at most one roommate row in total, and that id belongs to a
persisted row carrying the name. -/
theorem C2_getOrCreate_app_idempotent (f : Failures) (db : DB) (name : String)
    (_hname : jsTrim name ≠ "") (hl : f.lookupRoommate = false)
    (hi : f.insertRoommate = false) :
    ∃ rid db1, getOrCreate_app f db name = .ok (rid, db1) ∧
      getOrCreate_app f db1 name = .ok (rid, db1) ∧
      db1.roommates.length ≤ db.roommates.length + 1 ∧
      ∃ r, r ∈ db1.roommates ∧ r.id = rid ∧ r.name = name := by
  unfold getOrCreate_app
  rw [hl, hi]
  simp only [Bool.false_eq_true, if_false]
  cases hf : findRoommate db name with
  | some r =>
    have hf2 : db.roommates.find? (fun q => q.name == name) = some r := hf
    have hmem := List.mem_of_find?_eq_some hf2
    have hb := List.find?_some hf2
    simp only [beq_iff_eq] at hb
    have hpr : r.name = name := hb
    exact ⟨r.id, db, rfl, hf ▸ rfl, Nat.le_succ _, r, hmem, rfl, hpr⟩
  | none =>
    refine ⟨db.nextId,
      { db with
          roommates := db.roommates ++ [{ id := db.nextId, name := name }]
          nextId := db.nextId + 1 }, ?_, ?_, by simp, ?_⟩
    · simp [insertRoommate]
    · have h2 : findRoommate
          { db with
              roommates := db.roommates ++ [{ id := db.nextId, name := name }]
              nextId := db.nextId + 1 } name =
          some { id := db.nextId, name := name } := by
        unfold findRoommate at hf ⊢
        simp only
        rw [find?_append_of_none hf]
        simp [List.find?]
      rw [h2]
    · exact ⟨{ id := db.nextId, name := name }, by simp, rfl, rfl⟩

/-- Witness for C2: creating "Alex" twice in an empty store. -/
theorem C2_getOrCreate_app_idempotent_witness :
    ∃ rid db1, getOrCreate_app noFail wDBEmpty "Alex" = .ok (rid, db1) ∧
      getOrCreate_app noFail db1 "Alex" = .ok (rid, db1) ∧
      db1.roommates.length ≤ wDBEmpty.roommates.length + 1 ∧
      ∃ r, r ∈ db1.roommates ∧ r.id = rid ∧ r.name = "Alex" :=
  C2_getOrCreate_app_idempotent noFail wDBEmpty "Alex" (by decide) rfl rfl

/-- Counterexample to claim C2 as stated: in the app/page.js variant the
submit-time creation sequence is a blind insert with no existence
re-check, so running it twice in sequence (no identity cached either
time) yields two different ids and two persisted roommate rows for the
same name. -/
theorem C2_counterexample_page_blind_insert :
    (getOrCreate_page (getOrCreate_page wDBEmpty "Alex").2 "Alex").1 ≠
      (getOrCreate_page wDBEmpty "Alex").1 ∧
    (getOrCreate_page (getOrCreate_page wDBEmpty "Alex").2 "Alex").2.roommates.length = 2 ∧
    (getOrCreate_page (getOrCreate_page wDBEmpty "Alex").2 "Alex").2.roommates.map
      Roommate.name = ["Alex", "Alex"] := by
  decide

/-- Claim C4, failing run: the debounce can only cancel timers that have
not yet fired; once `fetchRoommateData` has started, its completion is
applied to session state unconditionally (no generation tag, no relevance
check).  Start a resolution for "Alex", then one for "Bob"; let the Bob
result arrive first and the Alex result arrive late.  The newer
resolution ("Bob", id 2) completes and is then overwritten by the stale
"Alex" result: the final state shows the Alex id 1 and the Alex stored
score 4 while the settled name is still "Bob". -/
theorem C4_stale_resolution_overwrites_newer :
    (fetchRoommateData_app noFail wDBAB "Bob" wStBob).1.roommateId = some 2 ∧
    (applyArrivals noFail wDBAB ["Bob", "Alex"] wStBob).roommateId = some 1 ∧
    (applyArrivals noFail wDBAB ["Bob", "Alex"] wStBob).preferences 10 = some 4 ∧
    (applyArrivals noFail wDBAB ["Bob", "Alex"] wStBob).roommateName = "Bob" := by
  decide

/-- Counterexample to claim C5 as stated: submit with no cached identity
against a store that already holds "Alex" (id 7), with the preference
upsert failing.  The submit fails (error alert) but the resolved
identity of the session has changed from `none` to `some 7` — not "exactly as
it was immediately before the failed submit". -/
theorem C5_counterexample_roommateId_updated :
    (handleSubmit_app wFailUpsert wDBAlex7 wStAlex).2.2 = SubmitOutcome.errorAlert ∧
    (handleSubmit_app wFailUpsert wDBAlex7 wStAlex).1.roommateId = some 7 ∧
    wStAlex.roommateId = none := by
  decide

/-- A successful run of the src/App.js creation sequence never touches the
`preferences` collection. -/
theorem getOrCreate_app_ok_prefs (f : Failures) (db : DB) (name : String)
    (riddb : RoommateId × DB) (h : getOrCreate_app f db name = .ok riddb) :
    riddb.2.preferences = db.preferences := by
  unfold getOrCreate_app at h
  split at h
  · simp at h
  · split at h
    · simp only [Except.ok.injEq] at h
      rw [← h]
    · split at h
      · simp at h
      · simp only [Except.ok.injEq] at h
        rw [← h]
        simp [insertRoommate]

/-- A successful run of the src/App.js creation sequence returns the id of
a roommate row committed in the resulting store under the given name. -/
theorem getOrCreate_app_ok_row (f : Failures) (db : DB) (name : String)
    (riddb : RoommateId × DB) (h : getOrCreate_app f db name = .ok riddb) :
    ∃ r, r ∈ riddb.2.roommates ∧ r.id = riddb.1 ∧ r.name = name := by
  unfold getOrCreate_app at h
  split at h
  · simp at h
  · split at h
    · rename_i r hg
      simp only [Except.ok.injEq] at h
      rw [← h]
      have hf2 : db.roommates.find? (fun q => q.name == name) = some r := hg
      have hb := List.find?_some hf2
      simp only [beq_iff_eq] at hb
      exact ⟨r, List.mem_of_find?_eq_some hf2, rfl, hb⟩
    · split at h
      · simp at h
      · simp only [Except.ok.injEq] at h
        rw [← h]
        exact ⟨{ id := db.nextId, name := name }, by simp [insertRoommate], rfl, rfl⟩

/-- Claim C5 (amended): a failing submit (either variant) aborts with the
user-visible error alert as its only outcome, writes no preference rows,
restores the submit affordance (`loading = false`), and leaves the name,
catalog and local preference map untouched; the resolved identity is
either also untouched, or — when identity resolution/creation succeeded
before the failing upsert — updated to the id of a roommate row that is
actually committed in the store under the submitted (trimmed in
src/App.js, raw in app/page.js) name. -/
theorem C5_failed_submit_effects :
    (∀ f db st st2 db2, handleSubmit_app f db st = (st2, db2, .errorAlert) →
      st2.loading = false ∧ st2.roommateName = st.roommateName ∧
      st2.chores = st.chores ∧ st2.preferences = st.preferences ∧
      db2.preferences = db.preferences ∧
      (st2.roommateId = st.roommateId ∨
        ∃ r, r ∈ db2.roommates ∧ st2.roommateId = some r.id ∧
          r.name = jsTrim st.roommateName)) ∧
    (∀ f db st st2 db2, handleSubmit_page f db st = (st2, db2, .errorAlert) →
      st2.loading = false ∧ st2.roommateName = st.roommateName ∧
      st2.chores = st.chores ∧ st2.preferences = st.preferences ∧
      db2.preferences = db.preferences ∧
      (st2.roommateId = st.roommateId ∨
        ∃ r, r ∈ db2.roommates ∧ st2.roommateId = some r.id ∧
          r.name = st.roommateName)) := by
  constructor
  · intro f db st st2 db2 h
    unfold handleSubmit_app finishSubmit at h
    split at h
    · split at h
      · simp only [Prod.mk.injEq] at h
        obtain ⟨h1, h2, -⟩ := h
        subst h1; subst h2
        exact ⟨rfl, rfl, rfl, rfl, rfl, Or.inl rfl⟩
      · simp at h
    · split at h
      · simp only [Prod.mk.injEq] at h
        obtain ⟨h1, h2, -⟩ := h
        subst h1; subst h2
        exact ⟨rfl, rfl, rfl, rfl, rfl, Or.inl rfl⟩
      · rename_i riddb hg
        split at h
        · simp only [Prod.mk.injEq] at h
          obtain ⟨h1, h2, -⟩ := h
          subst h1; subst h2
          obtain ⟨r, hmem, hid, hnm⟩ := getOrCreate_app_ok_row f db _ riddb hg
          exact ⟨rfl, rfl, rfl, rfl,
            getOrCreate_app_ok_prefs f db _ riddb hg,
            Or.inr ⟨r, hmem, by simp [hid], hnm⟩⟩
        · simp at h
  · intro f db st st2 db2 h
    unfold handleSubmit_page finishSubmit getOrCreate_page insertRoommate at h
    split at h
    · split at h
      · simp only [Prod.mk.injEq] at h
        obtain ⟨h1, h2, -⟩ := h
        subst h1; subst h2
        exact ⟨rfl, rfl, rfl, rfl, rfl, Or.inl rfl⟩
      · simp at h
    · split at h
      · simp only [Prod.mk.injEq] at h
        obtain ⟨h1, h2, -⟩ := h
        subst h1; subst h2
        exact ⟨rfl, rfl, rfl, rfl, rfl, Or.inl rfl⟩
      · split at h
        · simp only [Prod.mk.injEq] at h
          obtain ⟨h1, h2, -⟩ := h
          subst h1; subst h2
          exact ⟨rfl, rfl, rfl, rfl, rfl,
            Or.inr ⟨{ id := db.nextId, name := st.roommateName }, by simp, rfl, rfl⟩⟩
        · simp at h

/-- Witness for the amended C5 theorem: a concrete failing submit
re-enables the affordance and leaves the local map and the persisted
preference rows untouched. -/
theorem C5_failed_submit_effects_witness :
    (handleSubmit_app wFailUpsert wDBAlex7 wStAlex).1.loading = false ∧
    (handleSubmit_app wFailUpsert wDBAlex7 wStAlex).1.preferences = wStAlex.preferences ∧
    (handleSubmit_app wFailUpsert wDBAlex7 wStAlex).2.1.preferences = wDBAlex7.preferences := by
  have he : (handleSubmit_app wFailUpsert wDBAlex7 wStAlex).2.2 = SubmitOutcome.errorAlert := by
    decide
  have h := (C5_failed_submit_effects).1 wFailUpsert wDBAlex7 wStAlex
    (handleSubmit_app wFailUpsert wDBAlex7 wStAlex).1
    (handleSubmit_app wFailUpsert wDBAlex7 wStAlex).2.1
    (by rw [← he])
  exact ⟨h.1, h.2.2.2.1, h.2.2.2.2.1⟩

/-- Counterexample to claim C6 as stated: in app/page.js a genuine lookup
backend error does not leave the session state unchanged — the
null-`roommateData` fallthrough clears the resolved identity (and the
preference map) exactly as if the name had definitively not been found. -/
theorem C6_counterexample_page_error_clears :
    (fetchRoommateData_page wFailLookup wDBAB "Alex"
      { wStBob with roommateId := some 2 }).2 = true ∧
    (fetchRoommateData_page wFailLookup wDBAB "Alex"
      { wStBob with roommateId := some 2 }).1.roommateId = none ∧
    ({ wStBob with roommateId := some 2 } : SessionState).roommateId = some 2 := by
  decide

/-- Claim C6 (amended): the two read outcomes are distinguished as
follows.  In src/App.js a genuine identity-lookup backend error leaves
the session state entirely unchanged and only logs; a definitive
not-found clears the resolved identity and empties the preference map
with nothing logged; a preference-fetch error after a successful lookup
is only logged and leaves the preference map unchanged, but the resolved
identity has already been updated to the freshly fetched id.  In
app/page.js a lookup backend error is logged and additionally clears the
identity and preference map, the same state change as not-found. -/
theorem C6_read_outcomes_distinguished :
    (∀ f db name st, f.lookupRoommate = true →
      fetchRoommateData_app f db name st = (st, true)) ∧
    (∀ f db name st, f.lookupRoommate = false → findRoommate db (jsTrim name) = none →
      fetchRoommateData_app f db name st =
        ({ st with roommateId := none, preferences := emptyPrefs }, false)) ∧
    (∀ f db name st r, f.lookupRoommate = false → f.fetchPrefs = true →
      findRoommate db (jsTrim name) = some r →
      fetchRoommateData_app f db name st = ({ st with roommateId := some r.id }, true)) ∧
    (∀ f db name st, f.lookupRoommate = true →
      fetchRoommateData_page f db name st =
        ({ st with roommateId := none, preferences := emptyPrefs }, true)) ∧
    (∀ f db name st, f.lookupRoommate = false → findRoommate db name = none →
      fetchRoommateData_page f db name st =
        ({ st with roommateId := none, preferences := emptyPrefs }, false)) := by
  refine ⟨?_, ?_, ?_, ?_, ?_⟩
  · intro f db name st h
    simp [fetchRoommateData_app, h]
  · intro f db name st h1 h2
    simp [fetchRoommateData_app, h1, h2]
  · intro f db name st r h1 h2 h3
    simp [fetchRoommateData_app, h1, h2, h3]
  · intro f db name st h
    simp [fetchRoommateData_page, h]
  · intro f db name st h1 h2
    simp [fetchRoommateData_page, h1, h2]

/-- Witness for the amended C6 theorem: a lookup error against the concrete
store leaves the "Bob" session untouched; resolving the absent name
"Carol" clears identity and preferences without a log; a failing
preference fetch after finding "Bob" (id 2) sets only the identity. -/
theorem C6_read_outcomes_distinguished_witness :
    fetchRoommateData_app wFailLookup wDBAB "Bob" wStBob = (wStBob, true) ∧
    fetchRoommateData_app noFail wDBAB "Carol" wStBob =
      ({ wStBob with roommateId := none, preferences := emptyPrefs }, false) ∧
    fetchRoommateData_app wFailFetchPrefs wDBAB "Bob" wStBob =
      ({ wStBob with roommateId := some 2 }, true) := by
  obtain ⟨h1, h2, h3, -, -⟩ := C6_read_outcomes_distinguished
  refine ⟨h1 wFailLookup wDBAB "Bob" wStBob rfl,
    h2 noFail wDBAB "Carol" wStBob rfl (by decide), ?_⟩
  have h := h3 wFailFetchPrefs wDBAB "Bob" wStBob { id := 2, name := "Bob" } rfl rfl (by decide)
  exact h

/-- Overwriting the score of a row does not change its composite key. -/
theorem keyMatches_updateScore (rid : RoommateId) (cid : ChoreId) (q : PrefRow) (s : Score) :
    keyMatches rid cid { q with preference_score := s } = keyMatches rid cid q := rfl

/-- `countKey` over a cons. -/
theorem countKey_cons (a : PrefRow) (l : List PrefRow) (rid : RoommateId) (cid : ChoreId) :
    countKey (a :: l) rid cid =
      countKey l rid cid + (if keyMatches rid cid a then 1 else 0) := by
  by_cases h : keyMatches rid cid a = true <;> simp [countKey, List.filter_cons, h]

/-- `countKey` over an append. -/
theorem countKey_append (l1 l2 : List PrefRow) (rid : RoommateId) (cid : ChoreId) :
    countKey (l1 ++ l2) rid cid = countKey l1 rid cid + countKey l2 rid cid := by
  simp [countKey, List.filter_append]

/-- A key absent from every row counts zero. -/
theorem countKey_eq_zero (rows : List PrefRow) (rid : RoommateId) (cid : ChoreId)
    (h : rows.any (keyMatches rid cid) = false) : countKey rows rid cid = 0 := by
  have h2 : rows.filter (keyMatches rid cid) = [] :=
    List.filter_eq_nil_iff.mpr (List.any_eq_false.mp h)
  simp [countKey, h2]

/-- The conflict-update pass of `upsertRow` preserves every key count. -/
theorem countKey_map_upd (r : PrefRow) (rows : List PrefRow) (rid : RoommateId)
    (cid : ChoreId) :
    countKey (rows.map (fun q =>
      if keyMatches r.roommate_id r.chore_id q then
        { q with preference_score := r.preference_score }
      else q)) rid cid = countKey rows rid cid := by
  induction rows with
  | nil => rfl
  | cons q qs ih =>
    rw [List.map_cons, countKey_cons, countKey_cons, ih]
    by_cases hq : keyMatches r.roommate_id r.chore_id q = true
    · rw [if_pos hq, keyMatches_updateScore]
    · rw [if_neg hq]

/-- `upsertRow` keeps the at-most-one-row-per-key invariant. -/
theorem upsertRow_countKey_le (rows : List PrefRow) (r : PrefRow)
    (h : ∀ a b, countKey rows a b ≤ 1) (rid : RoommateId) (cid : ChoreId) :
    countKey (upsertRow rows r) rid cid ≤ 1 := by
  unfold upsertRow
  split
  · rw [countKey_map_upd]
    exact h rid cid
  · rename_i hany
    rw [countKey_append, countKey_cons]
    by_cases hk : keyMatches rid cid r = true
    · have hkk : r.roommate_id = rid ∧ r.chore_id = cid := by
        simpa [keyMatches] using hk
      obtain ⟨h1, h2⟩ := hkk
      subst h1
      subst h2
      have h0 : countKey rows r.roommate_id r.chore_id = 0 :=
        countKey_eq_zero rows _ _ (by simpa using hany)
      have hnil : countKey ([] : List PrefRow) r.roommate_id r.chore_id = 0 := rfl
      rw [h0, hnil, if_pos hk]
    · have h0 : countKey [r] rid cid = 0 := by
        simp [countKey, List.filter_cons, hk]
      rw [if_neg hk]
      simpa using h rid cid

/-- The batched upsert keeps the at-most-one-row-per-key invariant. -/
theorem upsertPrefs_countKey_le (batch : List PrefRow) :
    ∀ rows : List PrefRow, (∀ a b, countKey rows a b ≤ 1) →
      ∀ rid cid, countKey (upsertPrefs rows batch) rid cid ≤ 1 := by
  induction batch with
  | nil => intro rows h rid cid; exact h rid cid
  | cons r bs ih =>
    intro rows h rid cid
    rw [upsertPrefs, List.foldl_cons]
    exact ih (upsertRow rows r) (fun a b => upsertRow_countKey_le rows r h a b) rid cid

/-- After the conflict-update pass, the updated key holds the new score. -/
theorem lookupKey_map_upd (r : PrefRow) :
    ∀ rows : List PrefRow, rows.any (keyMatches r.roommate_id r.chore_id) = true →
      lookupKey (rows.map (fun q =>
        if keyMatches r.roommate_id r.chore_id q then
          { q with preference_score := r.preference_score }
        else q)) r.roommate_id r.chore_id = some r.preference_score := by
  intro rows
  induction rows with
  | nil => intro h; simp at h
  | cons q qs ih =>
    intro hany
    by_cases hq : keyMatches r.roommate_id r.chore_id q = true
    · have hq2 : keyMatches r.roommate_id r.chore_id
          { q with preference_score := r.preference_score } = true := by
        rw [keyMatches_updateScore]
        exact hq
      rw [List.map_cons, if_pos hq]
      unfold lookupKey
      rw [List.find?_cons_of_pos _ hq2]
      rfl
    · have hany2 : qs.any (keyMatches r.roommate_id r.chore_id) = true := by
        simpa [List.any_cons, hq] using hany
      rw [List.map_cons, if_neg hq]
      unfold lookupKey at ih ⊢
      rw [List.find?_cons_of_neg _ hq]
      exact ih hany2

/-- Upserting a row whose key already has exactly one persisted row
updates that row in place: same number of rows, new score at the key. -/
theorem upsertRow_existing (rows : List PrefRow) (r : PrefRow)
    (h : countKey rows r.roommate_id r.chore_id = 1) :
    (upsertRow rows r).length = rows.length ∧
    lookupKey (upsertRow rows r) r.roommate_id r.chore_id = some r.preference_score := by
  have hany : rows.any (keyMatches r.roommate_id r.chore_id) = true := by
    by_contra hf
    have h0 := countKey_eq_zero rows r.roommate_id r.chore_id (by simpa using hf)
    omega
  unfold upsertRow
  rw [if_pos hany]
  exact ⟨by simp, lookupKey_map_upd r rows hany⟩

/-- A successful src/App.js submit leaves the `preferences` collection as
the batched upsert of the reported batch over its previous rows. -/
theorem handleSubmit_app_saved_prefs (f : Failures) (db : DB) (st : SessionState)
    (st2 : SessionState) (db2 : DB) (batch : List PrefRow)
    (h : handleSubmit_app f db st = (st2, db2, .saved batch)) :
    db2.preferences = upsertPrefs db.preferences batch := by
  unfold handleSubmit_app finishSubmit at h
  split at h
  · split at h
    · simp at h
    · simp only [Prod.mk.injEq, SubmitOutcome.saved.injEq] at h
      obtain ⟨-, h2, h3⟩ := h
      rw [← h2, ← h3]
  · split at h
    · simp at h
    · rename_i riddb hg
      split at h
      · simp at h
      · simp only [Prod.mk.injEq, SubmitOutcome.saved.injEq] at h
        obtain ⟨-, h2, h3⟩ := h
        rw [← h2, ← h3]
        show upsertPrefs riddb.2.preferences _ = _
        rw [getOrCreate_app_ok_prefs f db _ riddb hg]

/-- A successful app/page.js submit leaves the `preferences` collection as
the batched upsert of the reported batch over its previous rows. -/
theorem handleSubmit_page_saved_prefs (f : Failures) (db : DB) (st : SessionState)
    (st2 : SessionState) (db2 : DB) (batch : List PrefRow)
    (h : handleSubmit_page f db st = (st2, db2, .saved batch)) :
    db2.preferences = upsertPrefs db.preferences batch := by
  unfold handleSubmit_page finishSubmit getOrCreate_page insertRoommate at h
  split at h
  · split at h
    · simp at h
    · simp only [Prod.mk.injEq, SubmitOutcome.saved.injEq] at h
      obtain ⟨-, h2, h3⟩ := h
      rw [← h2, ← h3]
  · split at h
    · simp at h
    · split at h
      · simp at h
      · simp only [Prod.mk.injEq, SubmitOutcome.saved.injEq] at h
        obtain ⟨-, h2, h3⟩ := h
        rw [← h2, ← h3]

/-- Claim C3: the preference write is a batched upsert resolving on the
composite key (roommate_id, chore_id): it never errors, a key that
already has its one persisted row is updated in place (same row count,
new score), and after any successful submit of either variant — starting
from a store satisfying the at-most-one-row-per-key invariant — the
invariant still holds: never a duplicate row. -/
theorem C3_upsert_updates_in_place_no_duplicates :
    (∀ rows batch : List PrefRow, (∀ rid cid, countKey rows rid cid ≤ 1) →
      ∀ rid cid, countKey (upsertPrefs rows batch) rid cid ≤ 1) ∧
    (∀ (rows : List PrefRow) (r : PrefRow),
      countKey rows r.roommate_id r.chore_id = 1 →
      (upsertRow rows r).length = rows.length ∧
      lookupKey (upsertRow rows r) r.roommate_id r.chore_id = some r.preference_score) ∧
    (∀ f db st st2 db2 batch, (∀ rid cid, countKey db.preferences rid cid ≤ 1) →
      handleSubmit_app f db st = (st2, db2, .saved batch) →
      ∀ rid cid, countKey db2.preferences rid cid ≤ 1) ∧
    (∀ f db st st2 db2 batch, (∀ rid cid, countKey db.preferences rid cid ≤ 1) →
      handleSubmit_page f db st = (st2, db2, .saved batch) →
      ∀ rid cid, countKey db2.preferences rid cid ≤ 1) := by
  refine ⟨fun rows batch h => upsertPrefs_countKey_le batch rows h,
    fun rows r h => upsertRow_existing rows r h, ?_, ?_⟩
  · intro f db st st2 db2 batch hinv h rid cid
    rw [handleSubmit_app_saved_prefs f db st st2 db2 batch h]
    exact upsertPrefs_countKey_le batch db.preferences hinv rid cid
  · intro f db st st2 db2 batch hinv h rid cid
    rw [handleSubmit_page_saved_prefs f db st st2 db2 batch h]
    exact upsertPrefs_countKey_le batch db.preferences hinv rid cid

/-- Witness for C3: the spec scenario — "Alex" (id 7) already has the row
(7,1,2); submitting score 5 updates the row in place, and a full submit
against the store keeps the invariant at the written keys. -/
theorem C3_upsert_updates_in_place_no_duplicates_witness :
    countKey (upsertPrefs wDBAlex7.preferences
      [{ roommate_id := 7, chore_id := 1, preference_score := 5 }]) 7 1 ≤ 1 ∧
    (upsertRow wDBAlex7.preferences
      { roommate_id := 7, chore_id := 1, preference_score := 5 }).length =
      wDBAlex7.preferences.length ∧
    lookupKey (upsertRow wDBAlex7.preferences
      { roommate_id := 7, chore_id := 1, preference_score := 5 }) 7 1 = some 5 ∧
    countKey (handleSubmit_app noFail wDBAlex7 wStAlex).2.1.preferences 7 1 ≤ 1 ∧
    countKey (handleSubmit_app noFail wDBAlex7 wStAlex).2.1.preferences 7 2 ≤ 1 := by
  obtain ⟨h1, h2, h3, -⟩ := C3_upsert_updates_in_place_no_duplicates
  have hinv : ∀ rid cid, countKey wDBAlex7.preferences rid cid ≤ 1 :=
    fun rid cid => List.length_filter_le _ _
  have he : (handleSubmit_app noFail wDBAlex7 wStAlex).2.2 =
      SubmitOutcome.saved
        [{ roommate_id := 7, chore_id := 1, preference_score := 4 },
         { roommate_id := 7, chore_id := 2, preference_score := 1 }] := by
    decide
  have hsub := h3 noFail wDBAlex7 wStAlex
    (handleSubmit_app noFail wDBAlex7 wStAlex).1
    (handleSubmit_app noFail wDBAlex7 wStAlex).2.1
    [{ roommate_id := 7, chore_id := 1, preference_score := 4 },
     { roommate_id := 7, chore_id := 2, preference_score := 1 }]
    hinv (by rw [← he])
  obtain ⟨h4, h5⟩ := h2 wDBAlex7.preferences
    { roommate_id := 7, chore_id := 1, preference_score := 5 } (by decide)
  exact ⟨h1 wDBAlex7.preferences _ hinv 7 1, h4, h5, hsub 7 1, hsub 7 2⟩

end ChorePref
